import Mathlib

/-!
Verification development for the event-pipeline-api repository: a shallow
embedding of its message router (`process_message`), QI service handler
(`handle_qi_service`), ClickHouse log-store client
(`fetch_log_data_by_integration_id`), RabbitMQ client
(`publish_message`, `disconnect`) and publish endpoint (`publish_topic`),
with theorems settling the specification claims about them.

Conventions of the embedding:
  - Python exceptions are modelled with `Except PyError`; a function whose
    Lean embedding is total (returns a plain value, not `Except`) models a
    Python function whose body is fully guarded by a try/except and hence
    never lets an exception escape.
  - Network effects (broker, ClickHouse session) are modelled by explicit
    oracle records whose fields give the outcome of each external call.
  - Python values appearing in message bodies are modelled by the `Json`
    inductive; Python truthiness by `pyTruthy`.
-/

/-- Model of the Python exception values that the embedded code can raise. -/
inductive PyError where
  | keyError (k : String)
  | valueError (m : String)
  | attributeError (m : String)
  | typeError (m : String)
  | other (m : String)
deriving DecidableEq, Repr

/-- Model of Python `str(e)` for the exceptions above.  `str` of a `KeyError`
is the repr of the missing key, i.e. the key wrapped in single quotes. -/
def PyError.msg : PyError → String
  | PyError.keyError k => "\x27" ++ k ++ "\x27"
  | PyError.valueError m => m
  | PyError.attributeError m => m
  | PyError.typeError m => m
  | PyError.other m => m

/-- Lookup in a string-keyed association list; models both Python dict lookup
for string-valued dicts and keyword-argument lookup in `str.format`. -/
def strLookup (kwargs : List (String × String)) (k : String) : Option String :=
  match kwargs with
  | [] => none
  | (k₁, v) :: rest => if k₁ = k then some v else strLookup rest k

/-- Split a `str.format` replacement field into field name and format spec
at the first colon, as Python does. -/
def splitColon : List Char → List Char × List Char
  | [] => ([], [])
  | ':' :: rest => ([], rest)
  | c :: rest =>
      let p := splitColon rest
      (c :: p.1, p.2)

/-- Core of the model of Python `str.format` with keyword arguments, over the
character list of the template.  Faithful to CPython for the features the
source template uses: literal text, doubled-brace escapes, and `\x7bname\x7d` /
`\x7bname:spec\x7d` replacement fields looked up among the keyword arguments;
a field whose name is not among the keyword arguments raises `KeyError(name)`
(this happens before the format spec is examined, exactly as in CPython), and
a non-empty format spec applied to a string value raises `ValueError` (the
specs occurring in the source template, `String` and `sql`, are invalid for
`str` values; numeric padding specs are not modelled because none occur).
The first argument is fuel; every recursive call consumes at least one
character, so template length plus one suffices. -/
def pyFormatCore (kwargs : List (String × String)) : Nat → List Char → Except PyError (List Char)
  | 0, _ => Except.error (PyError.other "format fuel exhausted")
  | fuel + 1, cs =>
    match cs with
    | [] => Except.ok []
    | '{' :: '{' :: rest => (pyFormatCore kwargs fuel rest).map (fun t => '{' :: t)
    | '}' :: '}' :: rest => (pyFormatCore kwargs fuel rest).map (fun t => '}' :: t)
    | '}' :: _ => Except.error (PyError.valueError "Single brace encountered in format string")
    | '{' :: rest =>
        let field := rest.takeWhile (fun c => !(c == '}'))
        match rest.dropWhile (fun c => !(c == '}')) with
        | [] => Except.error (PyError.valueError "Single brace encountered in format string")
        | _ :: rest₁ =>
            let p := splitColon field
            match strLookup kwargs (String.mk p.1) with
            | none => Except.error (PyError.keyError (String.mk p.1))
            | some v =>
                match p.2 with
                | [] => (pyFormatCore kwargs fuel rest₁).map (fun t => v.data ++ t)
                | _ :: _ => Except.error (PyError.valueError "Invalid format specifier")
    | c :: rest => (pyFormatCore kwargs fuel rest).map (fun t => c :: t)

/-- Model of Python `template.format(**kwargs)` for string-valued keyword
arguments. -/
def pyFormat (template : String) (kwargs : List (String × String)) : Except PyError String :=
  (pyFormatCore kwargs (template.length + 1) template.data).map String.mk

/-- A row returned by the ClickHouse query `SELECT id, raw_data ...`:
the `id` column followed by the `raw_data` column. -/
abbrev Row := String × String

/-- An open ClickHouse session (opaque handle). -/
structure CHClient where
  sessionId : Nat
deriving DecidableEq, Repr

/-- State of the `ClickHouseClient` object from `src/config/clickhouse.py`:
its only mutable attribute is `self.client`, `none` while disconnected. -/
structure ClickHouseClient where
  client : Option CHClient
deriving DecidableEq, Repr

/-- Oracle for the external ClickHouse effects: the outcome `connect()` would
have (the connection logic, including the port-9440 fallback, is external
library behaviour collapsed into one outcome), and the outcome of
`self.client.query(q, params)` for each query string and parameter set. -/
structure CHWorld where
  connectResult : Except PyError CHClient
  queryResult : CHClient → String → List (String × String) → Except PyError (List Row)

/-- Observable outcome of one call to `fetch_log_data_by_integration_id`:
the client state after the call, whether `connect()` was invoked, the query
(with parameters) handed to `self.client.query` if any, and the returned
row list. -/
structure FetchTrace where
  st : ClickHouseClient
  connectCalled : Bool
  queryIssued : Option (String × List (String × String))
  rows : List Row
deriving Repr

/-- The triple-quoted query template from `fetch_log_data_by_integration_id`
in `src/config/clickhouse.py` (lines 91-98), verbatim including indentation.
`\x7b` and `\x7d` are the literal brace characters of the ClickHouse
parameter placeholders. -/
def chQueryTemplate : String :=
  "\n            SELECT id, raw_data\n            FROM queryinside.logs\n            WHERE integration_id = \x7bintegration_id:String\x7d\n            \x7blast_id_filter:sql\x7d\n            ORDER BY timestamp ASC\n            LIMIT 100000\n            "

/-- The filter fragment assigned to `last_id_filter` when `last_id` is
truthy (source line 105). -/
def lastIdFilterFragment : String := "AND id > \x7blast_id:String\x7d"

/-- Python truthiness of the optional string parameter `last_id`:
`None` and the empty string are falsy. -/
def optStrTruthy : Option String → Bool
  | none => false
  | some l => !(l == "")

/-- The `params` dict built by `fetch_log_data_by_integration_id`
(source lines 102-106). -/
def fetchParams (integration_id : String) (last_id : Option String) : List (String × String) :=
  if optStrTruthy last_id then
    [("integration_id", integration_id), ("last_id", last_id.getD "")]
  else
    [("integration_id", integration_id)]

/-- Body of `fetch_log_data_by_integration_id` after the client is available
(source lines 90-117): build the filter and params, run
`query.format(last_id_filter=...)`, and on success hand the formatted query
to `self.client.query`; any raised exception is caught by the enclosing
except clause, which logs and returns the empty list. -/
def fetchWithClient (st : ClickHouseClient) (w : CHWorld) (integration_id : String)
    (last_id : Option String) (cc : Bool) (c : CHClient) : FetchTrace :=
  match pyFormat chQueryTemplate
      [("last_id_filter", if optStrTruthy last_id then lastIdFilterFragment else "")] with
  | Except.error _ =>
      { st := st, connectCalled := cc, queryIssued := none, rows := [] }
  | Except.ok q =>
      match w.queryResult c q (fetchParams integration_id last_id) with
      | Except.error _ =>
          { st := st, connectCalled := cc,
            queryIssued := some (q, fetchParams integration_id last_id), rows := [] }
      | Except.ok rs =>
          { st := st, connectCalled := cc,
            queryIssued := some (q, fetchParams integration_id last_id), rows := rs }

/-- Model of `ClickHouseClient.fetch_log_data_by_integration_id`
(src/config/clickhouse.py lines 79-117).  If `self.client` is `None` it first
calls `connect()`; a connect failure is caught by the except clause and the
call returns the empty list.  Nothing in the body can escape the enclosing
try/except, so the embedding is a total function. -/
def fetch_log_data_by_integration_id (self : ClickHouseClient) (w : CHWorld)
    (integration_id : String) (last_id : Option String) : FetchTrace :=
  match self.client with
  | some c => fetchWithClient self w integration_id last_id false c
  | none =>
      match w.connectResult with
      | Except.error _ =>
          { st := self, connectCalled := true, queryIssued := none, rows := [] }
      | Except.ok c => fetchWithClient { client := some c } w integration_id last_id true c

/-- JSON values, the possible results of `json.loads` on a message body. -/
inductive Json where
  | null
  | bool (b : Bool)
  | num (n : Int)
  | str (s : String)
  | arr (xs : List Json)
  | obj (fields : List (String × Json))

/-- The hashable JSON scalars: the only values Python can add to the
`processed_integrations` set without raising `TypeError`. -/
inductive JAtom where
  | null
  | bool (b : Bool)
  | num (n : Int)
  | str (s : String)
deriving DecidableEq, Repr

/-- Hashable view of a JSON value: scalars are hashable, lists and dicts
are not. -/
def Json.toAtom : Json → Option JAtom
  | Json.null => some JAtom.null
  | Json.bool b => some (JAtom.bool b)
  | Json.num n => some (JAtom.num n)
  | Json.str s => some (JAtom.str s)
  | Json.arr _ => none
  | Json.obj _ => none

/-- Hashable view of an optional JSON value. -/
def optToAtom : Option Json → Option JAtom
  | none => none
  | some v => Json.toAtom v

/-- Python truthiness of the result of `message_body.get(key)`: `None`,
JSON null, `False`, `0`, the empty string, the empty list and the empty
dict are falsy; everything else is truthy. -/
def pyTruthy : Option Json → Bool
  | none => false
  | some Json.null => false
  | some (Json.bool b) => b
  | some (Json.num n) => !(n == 0)
  | some (Json.str s) => !(s == "")
  | some (Json.arr []) => false
  | some (Json.arr (_ :: _)) => true
  | some (Json.obj []) => false
  | some (Json.obj (_ :: _)) => true

/-- Model of Python `dict.get` on a parsed JSON object.  `json.loads`
produces dicts with unique keys, so first-match lookup agrees with it. -/
def jsonGet : List (String × Json) → String → Option Json
  | [], _ => none
  | (k, v) :: rest, key => if k = key then some v else jsonGet rest key

/-- The routing test `service_type == "qi"` of src/main.py line 143:
true exactly for the JSON string "qi". -/
def isQi : Option Json → Bool
  | some (Json.str s) => s == "qi"
  | _ => false

/-- The summary dict built by `handle_qi_service` (src/main.py lines 95-112).
`Option`-typed fields model key presence: the success dict carries
`data_count` and `last_id` and no `error`; the error dict carries `error`
and neither `data_count` nor `last_id`.  `last_id` itself holds an optional
id because the code stores `None` there for an empty row list. -/
structure QiSummary where
  integration_id : Option Json
  service : String
  data_count : Option Nat
  last_id : Option (Option String)
  error : Option String
  timestamp : String

/-- Model of `handle_qi_service` (src/main.py lines 83-112).  The whole body
is inside try/except, so the function is total: it returns a summary for
every outcome of the awaited fetch expression.  `fetchOutcome` is the
outcome of `clickhouse_client.fetch_log_data_by_integration_id(integration_id)`
(per the fetch model above it never raises, but the handler is written to
survive an exception, which the error branch embeds); `now` is the current
`str(datetime.now())`. -/
def handle_qi_service (integration_id : Option Json)
    (fetchOutcome : Except PyError (List Row)) (now : String) : QiSummary :=
  match fetchOutcome with
  | Except.ok log_data =>
      { integration_id := integration_id, service := "qi",
        data_count := some log_data.length,
        last_id := some (Option.map Prod.fst log_data.getLast?),
        error := none, timestamp := now }
  | Except.error e =>
      { integration_id := integration_id, service := "qi",
        data_count := none, last_id := none,
        error := some (PyError.msg e), timestamp := now }

/-- The consumer-global state mutated by `process_message`
(src/main.py lines 16-17): `message_count` (reported as
`messages_processed`) and the `processed_integrations` set, modelled as a
duplicate-free list of hashable atoms. -/
structure ConsumerState where
  message_count : Nat
  processed_integrations : List JAtom
deriving DecidableEq, Repr

/-- Terminal acknowledgment operations on a delivery. -/
inductive AckAction where
  | ack
  | nack
deriving DecidableEq, Repr

/-- A delivered message, after the external `json.loads(message.body.decode())`
step: `some j` when the body decodes and parses to the JSON value `j`,
`none` when decoding or parsing raises (the parse-failure path). -/
structure Message where
  bodyJson : Option Json

/-- Observable outcome of one `process_message` call: the consumer state
after the call, the terminal acknowledgment operations invoked in order
(the claim-level assumption that `ack`/`nack` themselves succeed is built
in), and the `integration_id` arguments of the `handle_qi_service`
invocations made. -/
structure ProcessTrace where
  state : ConsumerState
  acks : List AckAction
  qiCalls : List (Option Json)

/-- Python `set.add` on the processed-integrations set: a no-op when the
element is already present. -/
def setAdd (s : List JAtom) (v : JAtom) : List JAtom :=
  if v ∈ s then s else s ++ [v]

/-- The service routing of src/main.py lines 143-146: for `service_type`
equal to "qi" the handler is invoked with the extracted `integration_id`
(possibly `None`); any other service type only logs. -/
def routeCalls (service_type : Option Json) (integration_id : Option Json) : List (Option Json) :=
  if isQi service_type then [integration_id] else []

/-- Continuation of `process_message` once the body has parsed to a JSON
object and the counter has been incremented (src/main.py lines 136-153):
extract the ids, route, conditionally add to the set, acknowledge.
`handle_qi_service` cannot raise, so control always reaches the tracking
step; `set.add` raises `TypeError` on an unhashable (list or dict)
`integration_id`, which the except clause turns into a `nack`. -/
def processParsedObj (st₁ : ConsumerState) (fields : List (String × Json)) : ProcessTrace :=
  if pyTruthy (jsonGet fields "integration_id") then
    match optToAtom (jsonGet fields "integration_id") with
    | some a =>
        { state := { st₁ with processed_integrations := setAdd st₁.processed_integrations a },
          acks := [AckAction.ack],
          qiCalls := routeCalls (jsonGet fields "service_type") (jsonGet fields "integration_id") }
    | none =>
        { state := st₁, acks := [AckAction.nack],
          qiCalls := routeCalls (jsonGet fields "service_type") (jsonGet fields "integration_id") }
  else
    { state := st₁, acks := [AckAction.ack],
      qiCalls := routeCalls (jsonGet fields "service_type") (jsonGet fields "integration_id") }

/-- Model of `process_message` (src/main.py lines 114-158).  The body is one
try/except: a decode or parse failure reaches the except clause before the
counter increment and results in a `nack`; a parsed non-dict body raises
`AttributeError` at `message_body.get` after the increment, also a `nack`;
a parsed dict proceeds to routing and tracking.  The function is total:
under the assumption that `ack`/`nack` themselves succeed, no exception
escapes the loop body. -/
def process_message (st : ConsumerState) (m : Message) : ProcessTrace :=
  match m.bodyJson with
  | none => { state := st, acks := [AckAction.nack], qiCalls := [] }
  | some (Json.obj fields) =>
      processParsedObj { st with message_count := st.message_count + 1 } fields
  | some _ =>
      { state := { st with message_count := st.message_count + 1 },
        acks := [AckAction.nack], qiCalls := [] }

/-- The configuration fields of `core/config.py` that the RabbitMQ client
reads. -/
structure Settings where
  exchange_name : String
  queue_name : String
  routing_key : String
deriving DecidableEq, Repr

/-- The default configuration values from `core/config.py`: empty exchange
name (so the default exchange is used), queue `pipeline_queue`, routing key
`pipeline`. -/
def settingsDefault : Settings :=
  { exchange_name := "", queue_name := "pipeline_queue", routing_key := "pipeline" }

/-- An open AMQP connection (opaque handle). -/
structure AmqpConnection where
  connId : Nat
deriving DecidableEq, Repr

/-- State of the `RabbitMQClient` object relevant to `disconnect`:
`self.connection`, `None` until `connect()` has succeeded. -/
structure RMQClientState where
  connection : Option AmqpConnection
deriving DecidableEq, Repr

/-- Model of `RabbitMQClient.disconnect` (src/config/rabbitmq.py lines
173-176): `if self.connection: await self.connection.close()`.  There is no
try/except in this method, so the outcome of `connection.close()`
(`closeOutcome`) propagates when it is an error; a successful close leaves
`self.connection` set (the attribute is never reset). -/
def RabbitMQClient.disconnect (self : RMQClientState)
    (closeOutcome : Except PyError Unit) : Except PyError RMQClientState :=
  match self.connection with
  | none => Except.ok self
  | some _ =>
      match closeOutcome with
      | Except.ok _ => Except.ok self
      | Except.error e => Except.error e

/-- The headers dict attached by `publish_message`
(src/config/rabbitmq.py lines 185-189). -/
structure AmqpHeaders where
  content_type : String
  topic_id : Option String
  service : Option String
deriving DecidableEq, Repr

/-- AMQP delivery modes; the source always publishes persistent. -/
inductive DeliveryMode where
  | persistent
  | transient
deriving DecidableEq, Repr

/-- The `aio_pika.Message` built by `publish_message`: the body is the
published dict (its JSON encoding is modelled as the dict itself), plus
priority, delivery mode and headers. -/
structure AmqpMessage where
  body : List (String × String)
  priority : Nat
  delivery_mode : DeliveryMode
  headers : AmqpHeaders
deriving DecidableEq, Repr

/-- Model of `RabbitMQClient.publish_message` (src/config/rabbitmq.py lines
178-201) for a string-valued dict (the only kind the publish path sends):
build the message with persistent delivery and headers
`content_type=application/json`, `topic_id=topic_data.get("topic_id")`,
`service=topic_data.get("service")`, and publish it under the queue name
when the exchange name is empty (default exchange), else under the
configured routing key.  Returns the message and the routing key used. -/
def RabbitMQClient.publish_message (s : Settings) (topic_data : List (String × String))
    (priority : Nat) : AmqpMessage × String :=
  ({ body := topic_data, priority := priority,
     delivery_mode := DeliveryMode.persistent,
     headers := { content_type := "application/json",
                  topic_id := strLookup topic_data "topic_id",
                  service := strLookup topic_data "service" } },
   if s.exchange_name = "" then s.queue_name else s.routing_key)

/-- The body of a `POST /publish-topic` request (model/topic.py). -/
structure TopicRequest where
  integration_id : String
  service_type : String
deriving DecidableEq, Repr

/-- The response model of the publish endpoint (model/topic.py). -/
structure TopicResponse where
  message : String
  status : String
deriving DecidableEq, Repr

/-- The HTTPException raised by the publish endpoint on failure. -/
structure HTTPException where
  status_code : Nat
  detail : String
deriving DecidableEq, Repr

/-- The `message_data` dict built by the publish endpoint from the request
(src/main.py lines 63-66): only `integration_id` and `service_type`. -/
def message_data (r : TopicRequest) : List (String × String) :=
  [("integration_id", r.integration_id), ("service_type", r.service_type)]

/-- Model of the `publish_topic` endpoint (src/main.py lines 55-80):
build `message_data`, publish it; on success return a `TopicResponse` with
status "published", on a publish failure raise HTTP 500 whose detail embeds
the underlying error text.  `publishOutcome` is the outcome of the awaited
`rabbitmq_client.publish_message(message_data)` call. -/
def publish_topic (r : TopicRequest)
    (publishOutcome : Except PyError Unit) : Except HTTPException TopicResponse :=
  match publishOutcome with
  | Except.ok _ =>
      Except.ok { message := "Topic published successfully for integration " ++ r.integration_id,
                  status := "published" }
  | Except.error e =>
      Except.error { status_code := 500,
                     detail := "Failed to publish message: " ++ PyError.msg e }

/-- Key computational fact about the source query builder: whatever fragment
is passed for `last_id_filter`, Python `str.format` on the template raises
`KeyError` for `integration_id`, because the ClickHouse parameter
placeholder is parsed as a format replacement field whose name is not among
the keyword arguments. -/
theorem formatAlwaysFails (filt : String) :
    pyFormat chQueryTemplate [("last_id_filter", filt)] =
      Except.error (PyError.keyError "integration_id") := by
  set_option maxRecDepth 4000 in rfl

/-- Consequence of `formatAlwaysFails`: once a client is available, the fetch
body always falls into the except clause before reaching `client.query`,
leaving the state untouched and returning no rows. -/
theorem fetchWithClient_eq (st : ClickHouseClient) (w : CHWorld) (iid : String)
    (lid : Option String) (cc : Bool) (c : CHClient) :
    fetchWithClient st w iid lid cc c =
      { st := st, connectCalled := cc, queryIssued := none, rows := [] } := by
  unfold fetchWithClient
  rw [formatAlwaysFails]

/-- The routed continuation issues exactly one terminal acknowledgment. -/
theorem processParsedObj_acks (st₁ : ConsumerState) (fields : List (String × Json)) :
    (processParsedObj st₁ fields).acks = [AckAction.ack] ∨
    (processParsedObj st₁ fields).acks = [AckAction.nack] := by
  unfold processParsedObj
  split
  · split
    · exact Or.inl rfl
    · exact Or.inr rfl
  · exact Or.inl rfl

/-- Unfolding equation for `process_message` on an object body. -/
theorem process_message_obj (st : ConsumerState) (fields : List (String × Json)) :
    process_message st { bodyJson := some (Json.obj fields) } =
      processParsedObj { st with message_count := st.message_count + 1 } fields := rfl

/-- With a falsy `integration_id`, the routed continuation acknowledges and
does not touch the processed set. -/
theorem processParsedObj_falsy (st₁ : ConsumerState) (fields : List (String × Json))
    (h : pyTruthy (jsonGet fields "integration_id") = false) :
    processParsedObj st₁ fields =
      { state := st₁, acks := [AckAction.ack],
        qiCalls := routeCalls (jsonGet fields "service_type") (jsonGet fields "integration_id") } := by
  unfold processParsedObj
  rw [h]
  simp

/-- A falsy `integration_id` in an object body never changes the processed
set. -/
theorem processedUnchangedOfFalsy (st₂ : ConsumerState) (fields₂ : List (String × Json))
    (h : pyTruthy (jsonGet fields₂ "integration_id") = false) :
    (process_message st₂ { bodyJson := some (Json.obj fields₂) }).state.processed_integrations =
      st₂.processed_integrations := by
  rw [process_message_obj, processParsedObj_falsy _ _ h]

/-- Claim C1: for every delivered message, `process_message` terminates
having called exactly one terminal acknowledgment operation (ack on the
success paths, nack on the failure paths), and never lets an exception
propagate out of the loop body, assuming the ack and nack calls themselves
do not fail.  The embedding is a total function whose trace records the
acknowledgment operations, so totality is no-propagation and the theorem is
the exactly-once property. -/
theorem claim_C1_exactly_one_terminal_ack (st : ConsumerState) (m : Message) :
    ∃ a, (process_message st m).acks = [a] := by
  rcases m with ⟨body⟩
  rcases body with _ | j
  · exact ⟨AckAction.nack, rfl⟩
  · rcases j with _ | b | n | s | xs | fields
    · exact ⟨AckAction.nack, rfl⟩
    · exact ⟨AckAction.nack, rfl⟩
    · exact ⟨AckAction.nack, rfl⟩
    · exact ⟨AckAction.nack, rfl⟩
    · exact ⟨AckAction.nack, rfl⟩
    · rcases processParsedObj_acks { st with message_count := st.message_count + 1 } fields with h | h
      · exact ⟨AckAction.ack, h⟩
      · exact ⟨AckAction.nack, h⟩

/-- Claim C2: for a delivered message whose body is not valid JSON, the
router issues `nack` exactly once, leaves `messages_processed`
(`message_count`) and `processed_integrations` unchanged, invokes no
handler, and raises no exception (the embedding returns a trace for this
input rather than an error). -/
theorem claim_C2_malformed_body_nacked (st : ConsumerState) :
    process_message st { bodyJson := none } =
      { state := st, acks := [AckAction.nack], qiCalls := [] } := rfl

/-- Claim C3: `fetch_log_data_by_integration_id` never raises (its embedding
is total); when called with no client session it calls `connect()` first,
and on a connection failure or an always-failing query oracle the result is
the empty list. -/
theorem claim_C3_fetch_fail_open (self : ClickHouseClient) (w : CHWorld)
    (iid : String) (lid : Option String) :
    (fetch_log_data_by_integration_id self w iid lid).connectCalled = self.client.isNone ∧
    (self.client = none → (∃ e, w.connectResult = Except.error e) →
      (fetch_log_data_by_integration_id self w iid lid).rows = []) ∧
    ((∀ c q ps, ∃ e, w.queryResult c q ps = Except.error e) →
      (fetch_log_data_by_integration_id self w iid lid).rows = []) := by
  rcases self with ⟨cl⟩
  rcases cl with _ | c
  · rcases hw : w.connectResult with e | c
    · refine ⟨?_, fun _ _ => ?_, fun _ => ?_⟩ <;>
        simp [fetch_log_data_by_integration_id, hw]
    · refine ⟨?_, fun _ _ => ?_, fun _ => ?_⟩ <;>
        simp [fetch_log_data_by_integration_id, hw, fetchWithClient_eq]
  · refine ⟨?_, fun h _ => ?_, fun _ => ?_⟩
    · simp [fetch_log_data_by_integration_id, fetchWithClient_eq]
    · exact absurd h (by simp)
    · simp [fetch_log_data_by_integration_id, fetchWithClient_eq]

/-- Claim C3 witness: a concrete disconnected client with a failing
connection oracle: connect is attempted and the result is the empty list. -/
theorem claim_C3_witness :
    (fetch_log_data_by_integration_id ⟨none⟩
        ⟨Except.error (PyError.other "connection down"),
         fun _ _ _ => Except.error (PyError.other "query failed")⟩
        "abc" none).connectCalled = true ∧
    (fetch_log_data_by_integration_id ⟨none⟩
        ⟨Except.error (PyError.other "connection down"),
         fun _ _ _ => Except.error (PyError.other "query failed")⟩
        "abc" none).rows = [] := by
  have h := claim_C3_fetch_fail_open ⟨none⟩
    ⟨Except.error (PyError.other "connection down"),
     fun _ _ _ => Except.error (PyError.other "query failed")⟩ "abc" none
  exact ⟨h.1, h.2.1 rfl ⟨PyError.other "connection down", rfl⟩⟩

/-- Claim C4 (code bug): the query described by the spec is never built or
issued.  Evaluating the embedded code at a connected client whose query
oracle would return a row: with and without a `last_id`, no query reaches
`client.query` (`queryIssued = none`) and the call returns the empty list,
because `query.format(last_id_filter=...)` raises
`KeyError(integration_id)` on the ClickHouse placeholder, as the last two
conjuncts evaluate for both filter fragments the source can build. -/
theorem claim_C4_format_keyerror :
    fetch_log_data_by_integration_id ⟨some ⟨0⟩⟩
        ⟨Except.ok ⟨0⟩, fun _ _ _ => Except.ok [("row1", "data1")]⟩ "abc" (some "x") =
      { st := ⟨some ⟨0⟩⟩, connectCalled := false, queryIssued := none, rows := [] } ∧
    fetch_log_data_by_integration_id ⟨some ⟨0⟩⟩
        ⟨Except.ok ⟨0⟩, fun _ _ _ => Except.ok [("row1", "data1")]⟩ "abc" none =
      { st := ⟨some ⟨0⟩⟩, connectCalled := false, queryIssued := none, rows := [] } ∧
    pyFormat chQueryTemplate [("last_id_filter", lastIdFilterFragment)] =
      Except.error (PyError.keyError "integration_id") ∧
    pyFormat chQueryTemplate [("last_id_filter", "")] =
      Except.error (PyError.keyError "integration_id") := by
  refine ⟨?_, ?_, formatAlwaysFails _, formatAlwaysFails _⟩ <;>
    simp [fetch_log_data_by_integration_id, fetchWithClient_eq]

/-- Claim C5: `handle_qi_service` never raises (total embedding); when the
fetch returns a row sequence the summary carries that integration id,
service "qi", `data_count` equal to the number of rows and `last_id` equal
to the id of the final row (null when the sequence is empty) and no error
key; when the awaited fetch raises, the summary instead carries an `error`
key and neither `data_count` nor `last_id`. -/
theorem claim_C5_qi_summary (iid : Option Json) (fo : Except PyError (List Row)) (now : String) :
    (∀ rows, fo = Except.ok rows →
      handle_qi_service iid fo now =
        { integration_id := iid, service := "qi", data_count := some rows.length,
          last_id := some (Option.map Prod.fst rows.getLast?),
          error := none, timestamp := now }) ∧
    (∀ e, fo = Except.error e →
      handle_qi_service iid fo now =
        { integration_id := iid, service := "qi", data_count := none, last_id := none,
          error := some (PyError.msg e), timestamp := now }) := by
  constructor
  · rintro rows rfl
    rfl
  · rintro e rfl
    rfl

/-- Claim C5 witness: a concrete two-row fetch yields count 2 and the id of
the second row. -/
theorem claim_C5_witness :
    handle_qi_service (some (Json.str "abc")) (Except.ok [("r1", "d1"), ("r2", "d2")]) "t0" =
      { integration_id := some (Json.str "abc"), service := "qi", data_count := some 2,
        last_id := some (some "r2"), error := none, timestamp := "t0" } :=
  (claim_C5_qi_summary (some (Json.str "abc"))
    (Except.ok [("r1", "d1"), ("r2", "d2")]) "t0").1 [("r1", "d1"), ("r2", "d2")] rfl


/-- Claim C6 counterexample: the claim as stated says the `topic_id` and
`service` headers are populated for every envelope published via the
publish path; at the concrete request (integration abc, service type qi)
the published message has both headers equal to `None`, because the
envelope built by the endpoint carries only `integration_id` and
`service_type` while the headers read `topic_data.get("topic_id")` and
`topic_data.get("service")`. -/
theorem claim_C6_counterexample :
    (RabbitMQClient.publish_message settingsDefault (message_data ⟨"abc", "qi"⟩) 5).1.headers.topic_id = none ∧
    (RabbitMQClient.publish_message settingsDefault (message_data ⟨"abc", "qi"⟩) 5).1.headers.service = none :=
  ⟨rfl, rfl⟩

/-- Claim C6 as amended: every envelope published via the publish path is
sent with header `content_type=application/json`, with `topic_id` and
`service` header keys present but null (the published dict has neither
key), with persistent delivery mode, with the envelope itself as body, and
under a routing key equal to the queue name when the default exchange is in
use (empty exchange name), else the configured routing key. -/
theorem claim_C6_publish_wire (s : Settings) (r : TopicRequest) (p : Nat) :
    (RabbitMQClient.publish_message s (message_data r) p).1.headers =
      { content_type := "application/json", topic_id := none, service := none } ∧
    (RabbitMQClient.publish_message s (message_data r) p).1.delivery_mode = DeliveryMode.persistent ∧
    (RabbitMQClient.publish_message s (message_data r) p).1.body = message_data r ∧
    (s.exchange_name = "" →
      (RabbitMQClient.publish_message s (message_data r) p).2 = s.queue_name) ∧
    (s.exchange_name ≠ "" →
      (RabbitMQClient.publish_message s (message_data r) p).2 = s.routing_key) := by
  refine ⟨rfl, rfl, rfl, fun h => ?_, fun h => ?_⟩ <;>
    simp [RabbitMQClient.publish_message, h]

/-- Claim C6 witness: under the default configuration (empty exchange name)
the routing key used is the queue name. -/
theorem claim_C6_witness :
    settingsDefault.exchange_name = "" ∧
    (RabbitMQClient.publish_message settingsDefault (message_data ⟨"abc", "qi"⟩) 5).2 =
      settingsDefault.queue_name :=
  ⟨rfl, (claim_C6_publish_wire settingsDefault ⟨"abc", "qi"⟩ 5).2.2.2.1 rfl⟩

/-- Claim C7 counterexample: the claim as stated says `disconnect` swallows
any transport error and never raises; at the concrete state holding an open
connection whose `close()` raises, `disconnect` propagates that very error
(there is no try/except around the close in the source). -/
theorem claim_C7_counterexample :
    RabbitMQClient.disconnect ⟨some ⟨0⟩⟩ (Except.error (PyError.other "transport failure")) =
      Except.error (PyError.other "transport failure") := rfl

/-- Claim C7 as amended: `disconnect` is a no-op when never connected and
returns normally (leaving the state unchanged, hence safe to repeat) when
the underlying `close()` succeeds; but it does not swallow transport
errors: any error it raises is exactly the error raised by `close()`. -/
theorem claim_C7_disconnect (self : RMQClientState) (o : Except PyError Unit) :
    (self.connection = none → RabbitMQClient.disconnect self o = Except.ok self) ∧
    (o = Except.ok () → RabbitMQClient.disconnect self o = Except.ok self) ∧
    (∀ e, RabbitMQClient.disconnect self o = Except.error e → o = Except.error e) := by
  rcases self with ⟨c⟩
  rcases c with _ | conn
  · exact ⟨fun _ => rfl, fun _ => rfl, fun e h => Except.noConfusion h⟩
  · rcases o with e | u
    · exact ⟨fun h => Option.noConfusion h, fun h => Except.noConfusion h,
        fun e₁ h => by simpa [RabbitMQClient.disconnect] using h⟩
    · exact ⟨fun h => Option.noConfusion h, fun _ => rfl, fun e₁ h => Except.noConfusion h⟩

/-- Claim C7 witness: `disconnect` on a never-connected client is a no-op. -/
theorem claim_C7_witness :
    ((⟨none⟩ : RMQClientState).connection = none) ∧
    RabbitMQClient.disconnect ⟨none⟩ (Except.ok ()) = Except.ok ⟨none⟩ :=
  ⟨rfl, (claim_C7_disconnect ⟨none⟩ (Except.ok ())).1 rfl⟩

/-- Claim C8: the publish endpoint returns a response with status token
"published" and the human-readable success message exactly when the
underlying publish succeeds; when the publish raises, it fails with an
HTTP 500 error whose detail is the fixed prefix followed by the underlying
error text (so the detail contains that text). -/
theorem claim_C8_publish_endpoint (r : TopicRequest) (po : Except PyError Unit) :
    ((∃ resp, publish_topic r po = Except.ok resp ∧ resp.status = "published" ∧
        resp.message = "Topic published successfully for integration " ++ r.integration_id) ↔
      po = Except.ok ()) ∧
    (∀ e, po = Except.error e →
      publish_topic r po =
        Except.error { status_code := 500,
                       detail := "Failed to publish message: " ++ PyError.msg e }) := by
  rcases po with e | u
  · constructor
    · constructor
      · rintro ⟨resp, h, -, -⟩
        exact Except.noConfusion h
      · rintro h
        exact Except.noConfusion h
    · rintro e₁ h
      injection h with h₁
      subst h₁
      rfl
  · constructor
    · constructor
      · intro _
        rfl
      · intro _
        exact ⟨_, rfl, rfl, rfl⟩
    · rintro e₁ h
      exact Except.noConfusion h

/-- Claim C8 witness: a concrete failing publish surfaces a 500 whose detail
embeds the error text. -/
theorem claim_C8_witness :
    publish_topic ⟨"abc", "qi"⟩ (Except.error (PyError.other "boom")) =
      Except.error { status_code := 500, detail := "Failed to publish message: boom" } :=
  (claim_C8_publish_endpoint ⟨"abc", "qi"⟩
    (Except.error (PyError.other "boom"))).2 (PyError.other "boom") rfl

/-- Claim C9: two invocations of `handle_qi_service` against the same fetched
row sequence (possibly at different wall-clock times) produce summaries
with identical `data_count` and identical `last_id`: the summary depends
only on the fetch outcome, not on the timestamp. -/
theorem claim_C9_qi_idempotent (iid : Option Json) (rows : List Row) (now₁ now₂ : String) :
    (handle_qi_service iid (Except.ok rows) now₁).data_count =
      (handle_qi_service iid (Except.ok rows) now₂).data_count ∧
    (handle_qi_service iid (Except.ok rows) now₁).last_id =
      (handle_qi_service iid (Except.ok rows) now₂).last_id :=
  ⟨rfl, rfl⟩

/-- Claim C10: for a delivered message whose body parses to a JSON object
whose `integration_id` is absent, null, or the empty string, the router
still increments `messages_processed` (`message_count`) and acknowledges
the message; when the service type is "qi" the handler is invoked with that
missing integration id; `processed_integrations` is left unchanged, and in
general an object body with a falsy integration id never changes the
processed set (only present, truthy ids are ever added). -/
theorem claim_C10_falsy_integration (st : ConsumerState) (fields : List (String × Json))
    (h : jsonGet fields "integration_id" = none ∨
         jsonGet fields "integration_id" = some Json.null ∨
         jsonGet fields "integration_id" = some (Json.str "")) :
    (process_message st { bodyJson := some (Json.obj fields) }).state.message_count =
      st.message_count + 1 ∧
    (process_message st { bodyJson := some (Json.obj fields) }).acks = [AckAction.ack] ∧
    (process_message st { bodyJson := some (Json.obj fields) }).state.processed_integrations =
      st.processed_integrations ∧
    (isQi (jsonGet fields "service_type") = true →
      (process_message st { bodyJson := some (Json.obj fields) }).qiCalls =
        [jsonGet fields "integration_id"]) ∧
    (∀ (st₂ : ConsumerState) (fields₂ : List (String × Json)),
      pyTruthy (jsonGet fields₂ "integration_id") = false →
      (process_message st₂ { bodyJson := some (Json.obj fields₂) }).state.processed_integrations =
        st₂.processed_integrations) := by
  have hF : pyTruthy (jsonGet fields "integration_id") = false := by
    rcases h with h | h | h <;> rw [h] <;> rfl
  have hE := processParsedObj_falsy { st with message_count := st.message_count + 1 } fields hF
  refine ⟨?_, ?_, ?_, ?_, processedUnchangedOfFalsy⟩
  · rw [process_message_obj, hE]
  · rw [process_message_obj, hE]
  · rw [process_message_obj, hE]
  · intro hQ
    rw [process_message_obj, hE]
    simp [routeCalls, hQ]

/-- Claim C10 witness: the concrete body with only a service type of "qi":
counter incremented, acknowledged, handler invoked with the missing id, set
untouched. -/
theorem claim_C10_witness :
    (jsonGet [("service_type", Json.str "qi")] "integration_id" = none ∨
     jsonGet [("service_type", Json.str "qi")] "integration_id" = some Json.null ∨
     jsonGet [("service_type", Json.str "qi")] "integration_id" = some (Json.str "")) ∧
    (process_message ⟨0, []⟩ { bodyJson := some (Json.obj [("service_type", Json.str "qi")]) }).state.message_count = 1 ∧
    (process_message ⟨0, []⟩ { bodyJson := some (Json.obj [("service_type", Json.str "qi")]) }).acks = [AckAction.ack] ∧
    (process_message ⟨0, []⟩ { bodyJson := some (Json.obj [("service_type", Json.str "qi")]) }).qiCalls = [none] ∧
    (process_message ⟨0, []⟩ { bodyJson := some (Json.obj [("service_type", Json.str "qi")]) }).state.processed_integrations = [] := by
  have h := claim_C10_falsy_integration ⟨0, []⟩ [("service_type", Json.str "qi")] (Or.inl rfl)
  exact ⟨Or.inl rfl, h.1, h.2.1, h.2.2.2.1 rfl, h.2.2.1⟩
